import Mathlib

/-!
Verification of the `markdown-walker` crate (`src/lib.rs`).

The crate exports a single trait, `MarkdownWalker`, over an accumulator type
`Self`.  Its methods are:

* `from_markdown` — parse a markdown string with a fixed comrak extension
  configuration, default-initialize the accumulator, and run `visit` from the
  root of the parsed tree;
* `visit` — dispatch the current node to the per-kind handler selected by an
  exhaustive match over `NodeValue`, then recurse into the children in order,
  short-circuiting on the first `io::Error` via the `?` operator;
* one `visit_<kind>` method per node kind, each defaulting to a no-op that
  returns `Ok(())`.

The embedding below models the comrak AST as a finite inductive tree (the
parser and the node taxonomy are external collaborators of the crate; their
payload types are modelled as plain records, which is all the crate's code
depends on).  A walker is a record of handler functions; Rust's
`&mut self` + `io::Result<()>` handler signature is embedded as state passing
`σ → σ × Option ε`, so that mutations performed before a failure survive the
failure (no rollback), exactly as in Rust where `self` is mutated in place.
-/

/-- Model of comrak's `NodeCode` payload (external collaborator type). -/
structure NodeCode where
  num_backticks : Nat
  literal : String
deriving DecidableEq

/-- Model of comrak's `NodeCodeBlock` payload (external collaborator type). -/
structure NodeCodeBlock where
  fenced : Bool
  fence_length : Nat
  fence_offset : Nat
  info : String
  literal : String
deriving DecidableEq

/-- Model of comrak's `NodeDescriptionItem` payload (external collaborator type). -/
structure NodeDescriptionItem where
  marker_offset : Nat
  padding : Nat
  tight : Bool
deriving DecidableEq

/-- Model of comrak's `NodeFootnoteDefinition` payload (external collaborator type). -/
structure NodeFootnoteDefinition where
  name : String
  total_references : Nat
deriving DecidableEq

/-- Model of comrak's `NodeFootnoteReference` payload (external collaborator type). -/
structure NodeFootnoteReference where
  name : String
  ref_num : Nat
  ix : Nat
deriving DecidableEq

/-- Model of comrak's `NodeHeading` payload (external collaborator type). -/
structure NodeHeading where
  level : Nat
  setext : Bool
deriving DecidableEq

/-- Model of comrak's `NodeHtmlBlock` payload (external collaborator type). -/
structure NodeHtmlBlock where
  block_type : Nat
  literal : String
deriving DecidableEq

/-- Model of comrak's `NodeLink` payload (external collaborator type). -/
structure NodeLink where
  url : String
  title : String
deriving DecidableEq

/-- Model of comrak's `ListType` tag (external collaborator type). -/
inductive ListType where
  | Bullet
  | Ordered
deriving DecidableEq

/-- Model of comrak's `NodeList` payload (external collaborator type). -/
structure NodeList where
  list_type : ListType
  start : Nat
  tight : Bool
  is_task_list : Bool
deriving DecidableEq

/-- Model of comrak's `NodeMath` payload (external collaborator type). -/
structure NodeMath where
  dollar_math : Bool
  display_math : Bool
  literal : String
deriving DecidableEq

/-- Model of comrak's `NodeMultilineBlockQuote` payload (external collaborator type). -/
structure NodeMultilineBlockQuote where
  fence_length : Nat
  fence_offset : Nat
deriving DecidableEq

/-- Model of comrak's `NodeShortCode` payload (external collaborator type). -/
structure NodeShortCode where
  code : String
  emoji : String
deriving DecidableEq

/-- Model of comrak's `NodeTable` payload (external collaborator type). -/
structure NodeTable where
  num_columns : Nat
  num_rows : Nat
  num_nonempty_cells : Nat
deriving DecidableEq

/-- Model of comrak's `NodeWikiLink` payload (external collaborator type). -/
structure NodeWikiLink where
  url : String
deriving DecidableEq

/-- Model of comrak's `NodeValue` enum: the closed node taxonomy, one
constructor per node kind, carrying the kind-specific payload exactly where
comrak does (`String` for text-like kinds, `bool` for `TableRow`,
`Option<char>` for `TaskItem`, a record for the rest).  The constructors are
listed in the order of the dispatch match in `MarkdownWalker::visit`
(src/lib.rs lines 131-185). -/
inductive NodeValue where
  | Document
  | Code (code : NodeCode)
  | CodeBlock (code_block : NodeCodeBlock)
  | EscapedTag (tag : String)
  | FrontMatter (frontmatter : String)
  | FootnoteDefinition (footnote_definition : NodeFootnoteDefinition)
  | FootnoteReference (footnote_reference : NodeFootnoteReference)
  | Heading (heading : NodeHeading)
  | HtmlBlock (html_block : NodeHtmlBlock)
  | HtmlInline (inline : String)
  | Image (link : NodeLink)
  | Item (list : NodeList)
  | Link (link : NodeLink)
  | List (list : NodeList)
  | Math (math : NodeMath)
  | MultilineBlockQuote (multiline_block_quote : NodeMultilineBlockQuote)
  | Raw (raw : String)
  | TaskItem (task_item : Option Char)
  | Text (text : String)
  | ShortCode (short_code : NodeShortCode)
  | WikiLink (wiki_link : NodeWikiLink)
  | DescriptionItem (description_item : NodeDescriptionItem)
  | DescriptionList
  | DescriptionTerm
  | DescriptionDetails
  | Table (table : NodeTable)
  | TableRow (table_row : Bool)
  | TableCell
  | BlockQuote
  | Emph
  | Escaped
  | LineBreak
  | Paragraph
  | SoftBreak
  | SpoileredText
  | Strikethrough
  | Strong
  | Subscript
  | Superscript
  | ThematicBreak
  | Underline
deriving DecidableEq

/-- The bare kind tag of a node, payload forgotten.  Used to state counting
properties ("the number of nodes of that kind"). -/
inductive NodeKind where
  | Document
  | Code
  | CodeBlock
  | EscapedTag
  | FrontMatter
  | FootnoteDefinition
  | FootnoteReference
  | Heading
  | HtmlBlock
  | HtmlInline
  | Image
  | Item
  | Link
  | List
  | Math
  | MultilineBlockQuote
  | Raw
  | TaskItem
  | Text
  | ShortCode
  | WikiLink
  | DescriptionItem
  | DescriptionList
  | DescriptionTerm
  | DescriptionDetails
  | Table
  | TableRow
  | TableCell
  | BlockQuote
  | Emph
  | Escaped
  | LineBreak
  | Paragraph
  | SoftBreak
  | SpoileredText
  | Strikethrough
  | Strong
  | Subscript
  | Superscript
  | ThematicBreak
  | Underline
deriving DecidableEq

/-- The kind tag of a `NodeValue`. -/
def kindOf : NodeValue → NodeKind
  | NodeValue.Document => NodeKind.Document
  | NodeValue.Code _ => NodeKind.Code
  | NodeValue.CodeBlock _ => NodeKind.CodeBlock
  | NodeValue.EscapedTag _ => NodeKind.EscapedTag
  | NodeValue.FrontMatter _ => NodeKind.FrontMatter
  | NodeValue.FootnoteDefinition _ => NodeKind.FootnoteDefinition
  | NodeValue.FootnoteReference _ => NodeKind.FootnoteReference
  | NodeValue.Heading _ => NodeKind.Heading
  | NodeValue.HtmlBlock _ => NodeKind.HtmlBlock
  | NodeValue.HtmlInline _ => NodeKind.HtmlInline
  | NodeValue.Image _ => NodeKind.Image
  | NodeValue.Item _ => NodeKind.Item
  | NodeValue.Link _ => NodeKind.Link
  | NodeValue.List _ => NodeKind.List
  | NodeValue.Math _ => NodeKind.Math
  | NodeValue.MultilineBlockQuote _ => NodeKind.MultilineBlockQuote
  | NodeValue.Raw _ => NodeKind.Raw
  | NodeValue.TaskItem _ => NodeKind.TaskItem
  | NodeValue.Text _ => NodeKind.Text
  | NodeValue.ShortCode _ => NodeKind.ShortCode
  | NodeValue.WikiLink _ => NodeKind.WikiLink
  | NodeValue.DescriptionItem _ => NodeKind.DescriptionItem
  | NodeValue.DescriptionList => NodeKind.DescriptionList
  | NodeValue.DescriptionTerm => NodeKind.DescriptionTerm
  | NodeValue.DescriptionDetails => NodeKind.DescriptionDetails
  | NodeValue.Table _ => NodeKind.Table
  | NodeValue.TableRow _ => NodeKind.TableRow
  | NodeValue.TableCell => NodeKind.TableCell
  | NodeValue.BlockQuote => NodeKind.BlockQuote
  | NodeValue.Emph => NodeKind.Emph
  | NodeValue.Escaped => NodeKind.Escaped
  | NodeValue.LineBreak => NodeKind.LineBreak
  | NodeValue.Paragraph => NodeKind.Paragraph
  | NodeValue.SoftBreak => NodeKind.SoftBreak
  | NodeValue.SpoileredText => NodeKind.SpoileredText
  | NodeValue.Strikethrough => NodeKind.Strikethrough
  | NodeValue.Strong => NodeKind.Strong
  | NodeValue.Subscript => NodeKind.Subscript
  | NodeValue.Superscript => NodeKind.Superscript
  | NodeValue.ThematicBreak => NodeKind.ThematicBreak
  | NodeValue.Underline => NodeKind.Underline

/-- The parsed document tree: a node value plus ordered children.  Being an
inductive type, it is finite and acyclic by construction, matching the
arena-backed comrak AST as seen by a traversal (the non-owning parent
back-reference is lookup-only and never used by the crate's code). -/
inductive Node where
  | node (value : NodeValue) (children : List Node)

/-- The node value stored at the root of a subtree. -/
def Node.value : Node → NodeValue
  | Node.node v _ => v

/-- The ordered children of the root of a subtree. -/
def Node.children : Node → List Node
  | Node.node _ cs => cs

/-- The kind tag of the node at the root of a subtree. -/
def nodeKind (t : Node) : NodeKind :=
  kindOf t.value

/-- Embedding of the `MarkdownWalker` trait: one handler per node kind, named
as in src/lib.rs.  A Rust handler `fn visit_x(&mut self, node, payload) ->
io::Result<()>` becomes a function from the node, the payload and the current
accumulator `σ` to the updated accumulator together with `none` (for `Ok(())`)
or `some e` (for `Err(e)`), `ε` being the error type. -/
structure MarkdownWalker (σ ε : Type) where
  visit_block_quote : Node → σ → σ × Option ε
  visit_code : Node → NodeCode → σ → σ × Option ε
  visit_code_block : Node → NodeCodeBlock → σ → σ × Option ε
  visit_description_item : Node → NodeDescriptionItem → σ → σ × Option ε
  visit_description_list : Node → σ → σ × Option ε
  visit_description_term : Node → σ → σ × Option ε
  visit_description_details : Node → σ → σ × Option ε
  visit_document : Node → σ → σ × Option ε
  visit_escaped : Node → σ → σ × Option ε
  visit_escaped_tag : Node → String → σ → σ × Option ε
  visit_emph : Node → σ → σ × Option ε
  visit_footnote_definition : Node → NodeFootnoteDefinition → σ → σ × Option ε
  visit_footnote_reference : Node → NodeFootnoteReference → σ → σ × Option ε
  visit_front_matter : Node → String → σ → σ × Option ε
  visit_heading : Node → NodeHeading → σ → σ × Option ε
  visit_html_block : Node → NodeHtmlBlock → σ → σ × Option ε
  visit_html_inline : Node → String → σ → σ × Option ε
  visit_image : Node → NodeLink → σ → σ × Option ε
  visit_item : Node → NodeList → σ → σ × Option ε
  visit_link : Node → NodeLink → σ → σ × Option ε
  visit_line_break : Node → σ → σ × Option ε
  visit_list : Node → NodeList → σ → σ × Option ε
  visit_math : Node → NodeMath → σ → σ × Option ε
  visit_multiline_block_quote : Node → NodeMultilineBlockQuote → σ → σ × Option ε
  visit_paragraph : Node → σ → σ × Option ε
  visit_raw : Node → String → σ → σ × Option ε
  visit_short_code : Node → NodeShortCode → σ → σ × Option ε
  visit_soft_break : Node → σ → σ × Option ε
  visit_spoilered_text : Node → σ → σ × Option ε
  visit_strong : Node → σ → σ × Option ε
  visit_strikethrough : Node → σ → σ × Option ε
  visit_subscript : Node → σ → σ × Option ε
  visit_superscript : Node → σ → σ × Option ε
  visit_table : Node → NodeTable → σ → σ × Option ε
  visit_table_cell : Node → σ → σ × Option ε
  visit_table_row : Node → Bool → σ → σ × Option ε
  visit_task_item : Node → Option Char → σ → σ × Option ε
  visit_text : Node → String → σ → σ × Option ε
  visit_thematic_break : Node → σ → σ × Option ε
  visit_underline : Node → σ → σ × Option ε
  visit_wiki_link : Node → NodeWikiLink → σ → σ × Option ε

/-- The walker whose every handler is the trait's default body `Ok(())`:
return success, touch nothing (src/lib.rs lines 194-537). -/
def defaultWalker {σ ε : Type} : MarkdownWalker σ ε where
  visit_block_quote := fun _ s => (s, none)
  visit_code := fun _ _ s => (s, none)
  visit_code_block := fun _ _ s => (s, none)
  visit_description_item := fun _ _ s => (s, none)
  visit_description_list := fun _ s => (s, none)
  visit_description_term := fun _ s => (s, none)
  visit_description_details := fun _ s => (s, none)
  visit_document := fun _ s => (s, none)
  visit_escaped := fun _ s => (s, none)
  visit_escaped_tag := fun _ _ s => (s, none)
  visit_emph := fun _ s => (s, none)
  visit_footnote_definition := fun _ _ s => (s, none)
  visit_footnote_reference := fun _ _ s => (s, none)
  visit_front_matter := fun _ _ s => (s, none)
  visit_heading := fun _ _ s => (s, none)
  visit_html_block := fun _ _ s => (s, none)
  visit_html_inline := fun _ _ s => (s, none)
  visit_image := fun _ _ s => (s, none)
  visit_item := fun _ _ s => (s, none)
  visit_link := fun _ _ s => (s, none)
  visit_line_break := fun _ s => (s, none)
  visit_list := fun _ _ s => (s, none)
  visit_math := fun _ _ s => (s, none)
  visit_multiline_block_quote := fun _ _ s => (s, none)
  visit_paragraph := fun _ s => (s, none)
  visit_raw := fun _ _ s => (s, none)
  visit_short_code := fun _ _ s => (s, none)
  visit_soft_break := fun _ s => (s, none)
  visit_spoilered_text := fun _ s => (s, none)
  visit_strong := fun _ s => (s, none)
  visit_strikethrough := fun _ s => (s, none)
  visit_subscript := fun _ s => (s, none)
  visit_superscript := fun _ s => (s, none)
  visit_table := fun _ _ s => (s, none)
  visit_table_cell := fun _ s => (s, none)
  visit_table_row := fun _ _ s => (s, none)
  visit_task_item := fun _ _ s => (s, none)
  visit_text := fun _ _ s => (s, none)
  visit_thematic_break := fun _ s => (s, none)
  visit_underline := fun _ s => (s, none)
  visit_wiki_link := fun _ _ s => (s, none)

/-- The dispatch step of `MarkdownWalker::visit` (src/lib.rs lines 131-185):
an exhaustive match on the node's kind tag, invoking exactly one handler with
the node and, where present, its payload.  There is no wildcard arm. -/
def dispatchNode {σ ε : Type} (w : MarkdownWalker σ ε) (t : Node) (s : σ) : σ × Option ε :=
  match t with
  | Node.node v _ =>
    match v with
    | NodeValue.Document => w.visit_document t s
    | NodeValue.Code code => w.visit_code t code s
    | NodeValue.CodeBlock code_block => w.visit_code_block t code_block s
    | NodeValue.EscapedTag tag => w.visit_escaped_tag t tag s
    | NodeValue.FrontMatter frontmatter => w.visit_front_matter t frontmatter s
    | NodeValue.FootnoteDefinition fd => w.visit_footnote_definition t fd s
    | NodeValue.FootnoteReference fr => w.visit_footnote_reference t fr s
    | NodeValue.Heading heading => w.visit_heading t heading s
    | NodeValue.HtmlBlock html_block => w.visit_html_block t html_block s
    | NodeValue.HtmlInline inline => w.visit_html_inline t inline s
    | NodeValue.Image link => w.visit_image t link s
    | NodeValue.Item list => w.visit_item t list s
    | NodeValue.Link link => w.visit_link t link s
    | NodeValue.List list => w.visit_list t list s
    | NodeValue.Math math => w.visit_math t math s
    | NodeValue.MultilineBlockQuote m => w.visit_multiline_block_quote t m s
    | NodeValue.Raw raw => w.visit_raw t raw s
    | NodeValue.TaskItem task_item => w.visit_task_item t task_item s
    | NodeValue.Text text => w.visit_text t text s
    | NodeValue.ShortCode short_code => w.visit_short_code t short_code s
    | NodeValue.WikiLink wiki_link => w.visit_wiki_link t wiki_link s
    | NodeValue.DescriptionItem di => w.visit_description_item t di s
    | NodeValue.DescriptionList => w.visit_description_list t s
    | NodeValue.DescriptionTerm => w.visit_description_term t s
    | NodeValue.DescriptionDetails => w.visit_description_details t s
    | NodeValue.Table table => w.visit_table t table s
    | NodeValue.TableRow table_row => w.visit_table_row t table_row s
    | NodeValue.TableCell => w.visit_table_cell t s
    | NodeValue.BlockQuote => w.visit_block_quote t s
    | NodeValue.Emph => w.visit_emph t s
    | NodeValue.Escaped => w.visit_escaped t s
    | NodeValue.LineBreak => w.visit_line_break t s
    | NodeValue.Paragraph => w.visit_paragraph t s
    | NodeValue.SoftBreak => w.visit_soft_break t s
    | NodeValue.SpoileredText => w.visit_spoilered_text t s
    | NodeValue.Strikethrough => w.visit_strikethrough t s
    | NodeValue.Strong => w.visit_strong t s
    | NodeValue.Subscript => w.visit_subscript t s
    | NodeValue.Superscript => w.visit_superscript t s
    | NodeValue.ThematicBreak => w.visit_thematic_break t s
    | NodeValue.Underline => w.visit_underline t s

mutual

/-- Embedding of `MarkdownWalker::visit` (src/lib.rs lines 128-192): dispatch
the current node to its handler (the `match` block, each arm suffixed `?`),
then visit each child in order (the `for child in node.children()` loop, each
call suffixed `?`), returning `Ok(())` at the end.  The `?` operator is the
early return on `some e`, with the accumulator kept as the failing handler
left it. -/
def visit {σ ε : Type} (w : MarkdownWalker σ ε) : Node → σ → σ × Option ε
  | Node.node v cs, s =>
    match dispatchNode w (Node.node v cs) s with
    | (s1, some e) => (s1, some e)
    | (s1, none) => visitChildren w cs s1

/-- The `for child in node.children()` loop of `visit`, with the `?` early
return on each recursive call. -/
def visitChildren {σ ε : Type} (w : MarkdownWalker σ ε) : List Node → σ → σ × Option ε
  | [], s => (s, none)
  | c :: cs, s =>
    match visit w c s with
    | (s1, some e) => (s1, some e)
    | (s1, none) => visitChildren w cs s1

end

mutual

/-- Instrumented copy of `visit` that additionally records the sequence of
nodes dispatched to a handler, in dispatch order.  It performs exactly the
same computation as `visit` (see `visitT_proj`); the trace is what lets us
state which nodes are and are not dispatched during a run. -/
def visitT {σ ε : Type} (w : MarkdownWalker σ ε) : Node → σ → σ × List Node × Option ε
  | Node.node v cs, s =>
    match dispatchNode w (Node.node v cs) s with
    | (s1, some e) => (s1, [Node.node v cs], some e)
    | (s1, none) =>
      match visitChildrenT w cs s1 with
      | (s2, tr, r) => (s2, Node.node v cs :: tr, r)

/-- Instrumented copy of `visitChildren`, recording dispatched nodes. -/
def visitChildrenT {σ ε : Type} (w : MarkdownWalker σ ε) : List Node → σ → σ × List Node × Option ε
  | [], s => (s, [], none)
  | c :: cs, s =>
    match visitT w c s with
    | (s1, tr, some e) => (s1, tr, some e)
    | (s1, tr, none) =>
      match visitChildrenT w cs s1 with
      | (s2, tr2, r) => (s2, tr ++ tr2, r)

end

mutual

/-- Fuel-indexed copy of `visit`: the fuel is the number of recursion frames
the traversal may still open, so `visitFuel w n t s = some r` says the
recursion reaches depth at most `n` on `t` and produces `r`.  Children run
with one unit less; running out of fuel yields `none`. -/
def visitFuel {σ ε : Type} (w : MarkdownWalker σ ε) : Nat → Node → σ → Option (σ × Option ε)
  | 0, _, _ => none
  | n + 1, Node.node v cs, s =>
    match dispatchNode w (Node.node v cs) s with
    | (s1, some e) => some (s1, some e)
    | (s1, none) => visitChildrenFuel w n cs s1

/-- Fuel-indexed copy of `visitChildren`; siblings share the same fuel. -/
def visitChildrenFuel {σ ε : Type} (w : MarkdownWalker σ ε) : Nat → List Node → σ → Option (σ × Option ε)
  | _, [], s => some (s, none)
  | n, c :: cs, s =>
    match visitFuel w n c s with
    | none => none
    | some (s1, some e) => some (s1, some e)
    | some (s1, none) => visitChildrenFuel w n cs s1

end

mutual

/-- Depth of a tree: number of levels, so a leaf node has depth 1. -/
def depth : Node → Nat
  | Node.node _ cs => depthList cs + 1

/-- Greatest depth among a list of trees (0 for the empty list). -/
def depthList : List Node → Nat
  | [] => 0
  | c :: cs => max (depth c) (depthList cs)

end

mutual

/-- Number of nodes in a tree. -/
def size : Node → Nat
  | Node.node _ cs => sizeList cs + 1

/-- Total number of nodes in a list of trees. -/
def sizeList : List Node → Nat
  | [] => 0
  | c :: cs => size c + sizeList cs

end

mutual

/-- Number of nodes of kind `k` in a tree. -/
def countKind (k : NodeKind) : Node → Nat
  | Node.node v cs => (if kindOf v = k then 1 else 0) + countKindList k cs

/-- Total number of nodes of kind `k` in a list of trees. -/
def countKindList (k : NodeKind) : List Node → Nat
  | [] => 0
  | c :: cs => countKind k c + countKindList k cs

end

mutual

/-- Specification-side linearization, following the spec's words: the
pre-order document-order listing of a tree — the node itself first, then the
listings of its children in order ("visit self before children"; "for two
sibling nodes A before B, A and all of A's descendants ... before B"). -/
def preorder : Node → List Node
  | Node.node v cs => Node.node v cs :: preorderList cs

/-- Pre-order listing of a list of sibling trees, in order. -/
def preorderList : List Node → List Node
  | [] => []
  | c :: cs => preorder c ++ preorderList cs

end

/-- Specification-side sequential dispatcher: run the dispatch step on each
node of a list in order, stopping at the first failure.  The refinement
theorems show `visit` equals this dispatcher applied to the pre-order
listing. -/
def dispatchSeq {σ ε : Type} (w : MarkdownWalker σ ε) : List Node → σ → σ × Option ε
  | [], s => (s, none)
  | n :: ns, s =>
    match dispatchNode w n s with
    | (s1, some e) => (s1, some e)
    | (s1, none) => dispatchSeq w ns s1

/-- Instrumented copy of `dispatchSeq`, also returning the nodes actually
dispatched, in order. -/
def dispatchSeqT {σ ε : Type} (w : MarkdownWalker σ ε) : List Node → σ → σ × List Node × Option ε
  | [], s => (s, [], none)
  | n :: ns, s =>
    match dispatchNode w n s with
    | (s1, some e) => (s1, [n], some e)
    | (s1, none) =>
      match dispatchSeqT w ns s1 with
      | (s2, tr, r) => (s2, n :: tr, r)

/-- A straight chain of `n + 1` document nodes; its depth is `n + 1`.  Used
to show the depth bound on the traversal's recursion is tight. -/
def chainNode : Nat → Node
  | 0 => Node.node NodeValue.Document []
  | n + 1 => Node.node NodeValue.Document [chainNode n]

/-- Model of the comrak `ExtensionOptions` fields set by `from_markdown`
(src/lib.rs lines 90-108).  Fields comrak defaults and the crate never
mentions are omitted: the crate's code neither reads nor sets them. -/
structure ExtensionOptions where
  autolink : Bool
  description_lists : Bool
  footnotes : Bool
  math_code : Bool
  math_dollars : Bool
  multiline_block_quotes : Bool
  shortcodes : Bool
  spoiler : Bool
  strikethrough : Bool
  subscript : Bool
  superscript : Bool
  table : Bool
  tagfilter : Bool
  tasklist : Bool
  underline : Bool
  wikilinks_title_after_pipe : Bool
  wikilinks_title_before_pipe : Bool
deriving DecidableEq

/-- Model of comrak's `Options`: `from_markdown` builds it from the extension
configuration with every other group left at its default
(`Options { extension, ..Options::default() }`, src/lib.rs lines 110-113);
the defaulted parse/render groups are never touched by the crate and are
omitted. -/
structure Options where
  extension : ExtensionOptions
deriving DecidableEq

/-- The fixed, hard-coded extension configuration of `from_markdown`
(src/lib.rs lines 90-108): every listed extension enabled. -/
def walkerExtensionOptions : ExtensionOptions where
  autolink := true
  description_lists := true
  footnotes := true
  math_code := true
  math_dollars := true
  multiline_block_quotes := true
  shortcodes := true
  spoiler := true
  strikethrough := true
  subscript := true
  superscript := true
  table := true
  tagfilter := true
  tasklist := true
  underline := true
  wikilinks_title_after_pipe := true
  wikilinks_title_before_pipe := true

/-- The `Options` value `from_markdown` passes to `parse_document`. -/
def walkerOptions : Options where
  extension := walkerExtensionOptions

/-- Embedding of `MarkdownWalker::from_markdown` (src/lib.rs lines 83-121).
`parse` is comrak's `parse_document`, an external collaborator; as in comrak
it is a total function from options and input text to a tree (the call in the
source is not fallible — no `?` is applied to it).  `d` is `Self::default()`.
The body parses with the fixed options, then runs `visit` from the root on
the default accumulator; `this.visit(nodes)?` makes any handler failure the
result, else the accumulator is returned. -/
def from_markdown {σ ε : Type} (parse : Options → String → Node)
    (w : MarkdownWalker σ ε) (d : σ) (markdown : String) : Except ε σ :=
  let nodes := parse walkerOptions markdown
  match visit w nodes d with
  | (_, some e) => Except.error e
  | (s, none) => Except.ok s

/-- A small concrete document tree: a document holding a paragraph with one
text node, followed by a thematic break.  Used to instantiate universally
quantified theorems. -/
def sampleNode : Node :=
  Node.node NodeValue.Document
    [Node.node NodeValue.Paragraph [Node.node (NodeValue.Text "a") []],
     Node.node NodeValue.ThematicBreak []]

/-- A concrete tree with two sibling text nodes inside a paragraph, then a
thematic break; used to exercise the short-circuit behavior. -/
def sampleFailNode : Node :=
  Node.node NodeValue.Document
    [Node.node NodeValue.Paragraph
       [Node.node (NodeValue.Text "x") [], Node.node (NodeValue.Text "y") []],
     Node.node NodeValue.ThematicBreak []]

/-- A concrete walker over `Nat` accumulators: counts paragraphs into the
accumulator and fails on every text node after bumping the accumulator by
100, overriding nothing else.  Demonstrates partial mutation before a
failure. -/
def failOnTextWalker : MarkdownWalker Nat String :=
  { defaultWalker with
      visit_paragraph := fun _ s => (s + 1, none)
      visit_text := fun _ _ s => (s + 100, some "text rejected") }

/-- A concrete parser stub mapping every input to a bare document root, as
comrak does for empty input. -/
def emptyParse : Options → String → Node :=
  fun _ _ => Node.node NodeValue.Document []

theorem dispatchSeq_append {σ ε : Type} (w : MarkdownWalker σ ε) (l1 l2 : List Node) (s : σ) :
    dispatchSeq w (l1 ++ l2) s =
      match dispatchSeq w l1 s with
      | (s1, some e) => (s1, some e)
      | (s1, none) => dispatchSeq w l2 s1 := by
  induction l1 generalizing s with
  | nil => simp [dispatchSeq]
  | cons n ns ih =>
    simp only [List.cons_append, dispatchSeq]
    rcases hd : dispatchNode w n s with ⟨s1, _ | e⟩
    · simp [ih]
    · simp

theorem dispatchSeqT_proj {σ ε : Type} (w : MarkdownWalker σ ε) (l : List Node) (s : σ) :
    ((dispatchSeqT w l s).1, (dispatchSeqT w l s).2.2) = dispatchSeq w l s := by
  induction l generalizing s with
  | nil => simp [dispatchSeqT, dispatchSeq]
  | cons n ns ih =>
    rcases hd : dispatchNode w n s with ⟨s1, _ | e⟩
    · have hih := ih s1
      rcases ht : dispatchSeqT w ns s1 with ⟨s2, tr, r⟩
      rw [ht] at hih
      simp only [dispatchSeqT, dispatchSeq, hd, ht]
      simpa using hih
    · simp [dispatchSeqT, dispatchSeq, hd]

theorem dispatchSeqT_ok_trace {σ ε : Type} (w : MarkdownWalker σ ε) (l : List Node) (s : σ) :
    (dispatchSeqT w l s).2.2 = none → (dispatchSeqT w l s).2.1 = l := by
  induction l generalizing s with
  | nil => intro _; rfl
  | cons n ns ih =>
    rcases hd : dispatchNode w n s with ⟨s1, _ | e⟩
    · have hih := ih s1
      rcases ht : dispatchSeqT w ns s1 with ⟨s2, tr, r⟩
      rw [ht] at hih
      simp only at hih
      simp only [dispatchSeqT, hd, ht]
      intro hr
      simp [hih hr]
    · simp [dispatchSeqT, hd]

theorem dispatchSeqT_append_fail {σ ε : Type} (w : MarkdownWalker σ ε)
    (pre : List Node) (n : Node) (post : List Node) (s s1 s2 : σ) (e : ε)
    (hok : dispatchSeq w pre s = (s1, none))
    (hfail : dispatchNode w n s1 = (s2, some e)) :
    dispatchSeqT w (pre ++ n :: post) s = (s2, pre ++ [n], some e) := by
  induction pre generalizing s with
  | nil =>
    simp only [dispatchSeq] at hok
    have h1 : s = s1 := congrArg Prod.fst hok
    subst h1
    simp [dispatchSeqT, hfail]
  | cons p ps ih =>
    simp only [dispatchSeq] at hok
    rcases hd : dispatchNode w p s with ⟨sp, rp⟩
    rw [hd] at hok
    cases rp with
    | some ep => simp at hok
    | none =>
      simp only at hok
      have hih := ih sp hok
      simp only [List.cons_append, dispatchSeqT, hd, hih]
      simp [hih]

mutual

theorem visit_eq_seq {σ ε : Type} (w : MarkdownWalker σ ε) :
    ∀ (t : Node) (s : σ), visit w t s = dispatchSeq w (preorder t) s
  | Node.node v cs, s => by
    rw [preorder]
    simp only [visit, dispatchSeq]
    rcases hd : dispatchNode w (Node.node v cs) s with ⟨s1, _ | e⟩
    · simp only
      exact visitChildren_eq_seq w cs s1
    · rfl

theorem visitChildren_eq_seq {σ ε : Type} (w : MarkdownWalker σ ε) :
    ∀ (ts : List Node) (s : σ), visitChildren w ts s = dispatchSeq w (preorderList ts) s
  | [], s => rfl
  | c :: cs, s => by
    rw [preorderList, dispatchSeq_append]
    simp only [visitChildren]
    rw [← visit_eq_seq w c s]
    rcases hv : visit w c s with ⟨s1, _ | e⟩
    · exact visitChildren_eq_seq w cs s1
    · rfl

end


theorem dispatchSeqT_append {σ ε : Type} (w : MarkdownWalker σ ε) (l1 l2 : List Node) (s : σ) :
    dispatchSeqT w (l1 ++ l2) s =
      match dispatchSeqT w l1 s with
      | (s1, tr, some e) => (s1, tr, some e)
      | (s1, tr, none) =>
        match dispatchSeqT w l2 s1 with
        | (s2, tr2, r) => (s2, tr ++ tr2, r) := by
  induction l1 generalizing s with
  | nil =>
    rcases ht : dispatchSeqT w l2 s with ⟨s2, tr2, r⟩
    simp [dispatchSeqT, ht]
  | cons n ns ih =>
    rcases hd : dispatchNode w n s with ⟨s1, _ | e⟩
    · have hih := ih s1
      rcases ht : dispatchSeqT w ns s1 with ⟨s2, tr, _ | e2⟩
      · rcases ht2 : dispatchSeqT w l2 s2 with ⟨s3, tr2, r⟩
        rw [ht] at hih
        simp only [ht2] at hih
        simp [dispatchSeqT, hd, hih, ht, ht2]
      · rw [ht] at hih
        simp only at hih
        simp [dispatchSeqT, hd, hih, ht]
    · simp [dispatchSeqT, hd]

mutual

theorem visitT_eq_seqT {σ ε : Type} (w : MarkdownWalker σ ε) :
    ∀ (t : Node) (s : σ), visitT w t s = dispatchSeqT w (preorder t) s
  | Node.node v cs, s => by
    rw [preorder]
    simp only [visitT, dispatchSeqT]
    rcases hd : dispatchNode w (Node.node v cs) s with ⟨s1, _ | e⟩
    · simp only
      rw [visitChildrenT_eq_seqT w cs s1]
    · rfl

theorem visitChildrenT_eq_seqT {σ ε : Type} (w : MarkdownWalker σ ε) :
    ∀ (ts : List Node) (s : σ), visitChildrenT w ts s = dispatchSeqT w (preorderList ts) s
  | [], s => rfl
  | c :: cs, s => by
    rw [preorderList, dispatchSeqT_append]
    simp only [visitChildrenT]
    rw [← visitT_eq_seqT w c s]
    simp only [visitChildrenT_eq_seqT w cs]

end

theorem visitT_proj {σ ε : Type} (w : MarkdownWalker σ ε) (t : Node) (s : σ) :
    ((visitT w t s).1, (visitT w t s).2.2) = visit w t s := by
  rw [visitT_eq_seqT, visit_eq_seq]
  exact dispatchSeqT_proj w (preorder t) s

theorem dispatch_default {σ ε : Type} (t : Node) (s : σ) :
    dispatchNode (defaultWalker : MarkdownWalker σ ε) t s = (s, none) := by
  rcases t with ⟨v, cs⟩
  cases v <;> rfl

theorem dispatchSeq_default {σ ε : Type} (l : List Node) (s : σ) :
    dispatchSeq (defaultWalker : MarkdownWalker σ ε) l s = (s, none) := by
  induction l generalizing s with
  | nil => rfl
  | cons n ns ih => simp [dispatchSeq, dispatch_default, ih]

theorem visit_default {σ ε : Type} (t : Node) (s : σ) :
    visit (defaultWalker : MarkdownWalker σ ε) t s = (s, none) := by
  rw [visit_eq_seq]
  exact dispatchSeq_default (preorder t) s

theorem dispatchSeq_ok {σ ε : Type} (w : MarkdownWalker σ ε)
    (h : ∀ (t : Node) (s : σ), (dispatchNode w t s).2 = none) (l : List Node) (s : σ) :
    (dispatchSeq w l s).2 = none := by
  induction l generalizing s with
  | nil => rfl
  | cons n ns ih =>
    have hn := h n s
    rcases hd : dispatchNode w n s with ⟨s1, r⟩
    rw [hd] at hn
    simp only at hn
    subst hn
    simp [dispatchSeq, hd, ih]

theorem visit_ok {σ ε : Type} (w : MarkdownWalker σ ε)
    (h : ∀ (t : Node) (s : σ), (dispatchNode w t s).2 = none) (t : Node) (s : σ) :
    (visit w t s).2 = none := by
  rw [visit_eq_seq]
  exact dispatchSeq_ok w h (preorder t) s

theorem preorderList_append (xs ys : List Node) :
    preorderList (xs ++ ys) = preorderList xs ++ preorderList ys := by
  induction xs with
  | nil => rfl
  | cons c cs ih => simp [preorderList, ih]

mutual

theorem preorder_length : ∀ t : Node, (preorder t).length = size t
  | Node.node v cs => by
    rw [preorder, size]
    simp only [List.length_cons]
    rw [preorderList_length cs]

theorem preorderList_length : ∀ ts : List Node, (preorderList ts).length = sizeList ts
  | [] => rfl
  | c :: cs => by
    rw [preorderList, sizeList]
    simp only [List.length_append]
    rw [preorder_length c, preorderList_length cs]

end

mutual

theorem preorder_count (k : NodeKind) :
    ∀ t : Node, ((preorder t).filter (fun n => decide (nodeKind n = k))).length = countKind k t
  | Node.node v cs => by
    have hrec := preorderList_count k cs
    rw [preorder, countKind]
    simp only [List.filter_cons]
    rw [show nodeKind (Node.node v cs) = kindOf v from rfl]
    by_cases hk : kindOf v = k
    · simp [hk, hrec]
      all_goals omega
    · simp [hk, hrec]

theorem preorderList_count (k : NodeKind) :
    ∀ ts : List Node, ((preorderList ts).filter (fun n => decide (nodeKind n = k))).length = countKindList k ts
  | [] => rfl
  | c :: cs => by
    rw [preorderList, countKindList, List.filter_append]
    simp only [List.length_append]
    rw [preorder_count k c, preorderList_count k cs]

end

mutual

theorem visitFuel_eq {σ ε : Type} (w : MarkdownWalker σ ε) :
    ∀ (t : Node) (n : Nat) (s : σ), depth t ≤ n → visitFuel w n t s = some (visit w t s)
  | Node.node v cs, n, s => by
    intro h
    rw [depth] at h
    cases n with
    | zero => omega
    | succ m =>
      have hcs : depthList cs ≤ m := by omega
      simp only [visitFuel, visit]
      rcases hd : dispatchNode w (Node.node v cs) s with ⟨s1, _ | e⟩
      · simp only
        exact visitChildrenFuel_eq w cs m s1 hcs
      · rfl

theorem visitChildrenFuel_eq {σ ε : Type} (w : MarkdownWalker σ ε) :
    ∀ (ts : List Node) (n : Nat) (s : σ), depthList ts ≤ n →
      visitChildrenFuel w n ts s = some (visitChildren w ts s)
  | [], _, s => fun _ => rfl
  | c :: cs, n, s => by
    intro h
    rw [depthList] at h
    have hc : depth c ≤ n := le_trans (le_max_left _ _) h
    have hcs : depthList cs ≤ n := le_trans (le_max_right _ _) h
    simp only [visitChildrenFuel, visitChildren]
    rw [visitFuel_eq w c n s hc]
    rcases hv : visit w c s with ⟨s1, _ | e⟩
    · simp only
      exact visitChildrenFuel_eq w cs n s1 hcs
    · rfl

end

theorem chainFuel_none {σ ε : Type} :
    ∀ (n : Nat) (s : σ), visitFuel (defaultWalker : MarkdownWalker σ ε) n (chainNode n) s = none
  | 0, _ => rfl
  | n + 1, s => by
    simp only [chainNode, visitFuel, dispatch_default]
    simp only [visitChildrenFuel, chainFuel_none n s]

theorem chain_depth : ∀ n : Nat, depth (chainNode n) = n + 1
  | 0 => rfl
  | n + 1 => by
    simp only [chainNode, depth, depthList]
    rw [chain_depth n]
    omega

/-- C1: for every tree and walker, `visit` performs a recursive depth-first
pre-order, document-order traversal: it equals running the dispatch step over
the pre-order listing of the tree, on a failure-free run the dispatched-node
trace is exactly that listing, the listing puts each node before its
children, and for sibling subtrees the whole listing of an earlier sibling
precedes that of a later sibling. -/
theorem visit_preorder_document_order {σ ε : Type} (w : MarkdownWalker σ ε) (t : Node) (s : σ) :
    visit w t s = dispatchSeq w (preorder t) s
    ∧ ((visitT w t s).2.2 = none → (visitT w t s).2.1 = preorder t)
    ∧ (∀ (v : NodeValue) (cs : List Node),
        preorder (Node.node v cs) = Node.node v cs :: preorderList cs)
    ∧ (∀ xs ys : List Node, preorderList (xs ++ ys) = preorderList xs ++ preorderList ys) := by
  refine ⟨visit_eq_seq w t s, ?_, fun v cs => rfl, preorderList_append⟩
  intro h
  rw [visitT_eq_seqT] at h ⊢
  exact dispatchSeqT_ok_trace w (preorder t) s h

/-- Witness for C1 on a concrete tree and the default walker: the run
succeeds and its dispatch trace is the pre-order listing. -/
theorem visit_preorder_document_order_witness :
    (visitT (defaultWalker : MarkdownWalker Nat String) sampleNode 0).2.2 = none
    ∧ (visitT (defaultWalker : MarkdownWalker Nat String) sampleNode 0).2.1 = preorder sampleNode :=
  ⟨rfl, (visit_preorder_document_order (defaultWalker : MarkdownWalker Nat String) sampleNode 0).2.1 rfl⟩

/-- C2: short-circuit law.  If the pre-order listing splits as
`pre ++ nd :: post`, dispatching `pre` succeeds ending in accumulator `s1`,
and the handler dispatched at `nd` from `s1` fails with `e`, then `visit`
returns exactly `(s2, some e)` — the error unmodified and the accumulator as
the failing handler left it, the prefix mutations preserved — and the trace
of dispatched nodes is exactly `pre ++ [nd]`: no node after `nd` in
pre-order (children of `nd`, later siblings, ancestors' later children) is
dispatched. -/
theorem visit_short_circuit {σ ε : Type} (w : MarkdownWalker σ ε) (t : Node) (s : σ)
    (pre : List Node) (nd : Node) (post : List Node) (s1 s2 : σ) (e : ε)
    (hsplit : preorder t = pre ++ nd :: post)
    (hok : dispatchSeq w pre s = (s1, none))
    (hfail : dispatchNode w nd s1 = (s2, some e)) :
    visit w t s = (s2, some e) ∧ (visitT w t s).2.1 = pre ++ [nd] := by
  have ht : dispatchSeqT w (preorder t) s = (s2, pre ++ [nd], some e) := by
    rw [hsplit]
    exact dispatchSeqT_append_fail w pre nd post s s1 s2 e hok hfail
  constructor
  · rw [visit_eq_seq, ← dispatchSeqT_proj, ht]
  · rw [visitT_eq_seqT, ht]

/-- Witness for C2: a walker failing on text nodes, run on a document holding
a paragraph with two texts and a thematic break.  The paragraph handler's
mutation (+1) and the failing text handler's own mutation (+100) are in the
result, the error is the handler's own, and the trace stops at the first
text node: its sibling text, the thematic break and nothing else after the
failure point were dispatched. -/
theorem visit_short_circuit_witness :
    visit failOnTextWalker sampleFailNode 0 = (101, some "text rejected")
    ∧ (visitT failOnTextWalker sampleFailNode 0).2.1 =
        [sampleFailNode,
         Node.node NodeValue.Paragraph
           [Node.node (NodeValue.Text "x") [], Node.node (NodeValue.Text "y") []],
         Node.node (NodeValue.Text "x") []] :=
  visit_short_circuit failOnTextWalker sampleFailNode 0
    [sampleFailNode,
     Node.node NodeValue.Paragraph
       [Node.node (NodeValue.Text "x") [], Node.node (NodeValue.Text "y") []]]
    (Node.node (NodeValue.Text "x") [])
    [Node.node (NodeValue.Text "y") [], Node.node NodeValue.ThematicBreak []]
    1 101 "text rejected" rfl rfl rfl

/-- C6: determinism and idempotence.  Two runs of the traversal over the
same tree with equal freshly initialized accumulators yield identical
results, both through `visit` and through `from_markdown` on the same input
text: the embedding of the crate is a pure function of the walker, tree and
initial accumulator, with no other input. -/
theorem visit_deterministic {σ ε : Type} (w : MarkdownWalker σ ε) (t : Node) (d1 d2 : σ)
    (h : d1 = d2) :
    visit w t d1 = visit w t d2
    ∧ (∀ (parse : Options → String → Node) (md : String),
        from_markdown parse w d1 md = from_markdown parse w d2 md) := by
  subst h
  exact ⟨rfl, fun _ _ => rfl⟩

/-- Witness for C6 at a concrete tree, walker and accumulator. -/
theorem visit_deterministic_witness :
    visit (defaultWalker : MarkdownWalker Nat String) sampleNode 0 =
      visit (defaultWalker : MarkdownWalker Nat String) sampleNode 0 :=
  (visit_deterministic (defaultWalker : MarkdownWalker Nat String) sampleNode 0 0 rfl).1

/-- C9: termination and recursion depth.  With fuel counting open recursion
frames, fuel `depth t` always suffices — `visit` terminates on every finite
tree with recursion depth at most the tree's depth — and the bound is the
tree depth exactly: on a chain of depth `m + 1` (with the default walker,
whose handler calls all terminate) fuel `m` runs out. -/
theorem visit_termination_depth {σ ε : Type} (w : MarkdownWalker σ ε) (n : Nat) (t : Node) (s : σ)
    (h : depth t ≤ n) :
    visitFuel w n t s = some (visit w t s)
    ∧ (∀ (m : Nat) (s0 : σ),
        visitFuel (defaultWalker : MarkdownWalker σ ε) m (chainNode m) s0 = none)
    ∧ (∀ m : Nat, depth (chainNode m) = m + 1) :=
  ⟨visitFuel_eq w t n s h, fun m s0 => chainFuel_none m s0, chain_depth⟩

/-- Witness for C9 at a concrete tree of depth 3 with fuel 3, and fuel 2
exhausted on the chain of depth 3. -/
theorem visit_termination_depth_witness :
    depth sampleNode ≤ 3
    ∧ visitFuel (defaultWalker : MarkdownWalker Nat String) 3 sampleNode 0 =
        some (visit (defaultWalker : MarkdownWalker Nat String) sampleNode 0)
    ∧ visitFuel (defaultWalker : MarkdownWalker Nat String) 2 (chainNode 2) 0 = none :=
  ⟨by decide,
   (visit_termination_depth (defaultWalker : MarkdownWalker Nat String) 3 sampleNode 0 (by decide)).1,
   (visit_termination_depth (defaultWalker : MarkdownWalker Nat String) 3 sampleNode 0 (by decide)).2.1 2 0⟩

/-- C10: the framework adds no failure path of its own.  If every handler of
a walker returns success on every node, then `visit` succeeds on every node
of every finite tree and `from_markdown` returns the accumulator for every
input string. -/
theorem framework_no_failure {σ ε : Type} (w : MarkdownWalker σ ε)
    (h : ∀ (t : Node) (s : σ), (dispatchNode w t s).2 = none) :
    (∀ (t : Node) (s : σ), (visit w t s).2 = none)
    ∧ (∀ (parse : Options → String → Node) (d : σ) (md : String),
        from_markdown parse w d md = Except.ok (visit w (parse walkerOptions md) d).1) := by
  refine ⟨visit_ok w h, fun parse d md => ?_⟩
  have h2 := visit_ok w h (parse walkerOptions md) d
  simp only [from_markdown]
  rcases hv : visit w (parse walkerOptions md) d with ⟨s1, r⟩
  rw [hv] at h2
  simp only at h2
  subst h2
  simp

/-- Witness for C10 with the default walker, which overrides nothing: the
dispatch of every node succeeds untouched, so `visit` and `from_markdown`
succeed. -/
theorem framework_no_failure_witness :
    (visit (defaultWalker : MarkdownWalker Nat String) sampleNode 0).2 = none
    ∧ from_markdown emptyParse (defaultWalker : MarkdownWalker Nat String) 0 "abc" = Except.ok 0 := by
  have hall := framework_no_failure (defaultWalker : MarkdownWalker Nat String)
    (fun t s => by rw [dispatch_default])
  refine ⟨hall.1 sampleNode 0, ?_⟩
  have h2 := hall.2 emptyParse 0 "abc"
  simpa [emptyParse, visit_default] using h2

/-- C4: `from_markdown` parses the text with the fixed hard-coded extension
configuration — the seventeen listed comrak extensions simultaneously
enabled, with no configuration parameter in its signature — then runs the
traversal from the parsed root on a default-initialized accumulator and
returns the accumulator on success or the first failure on failure. -/
theorem from_markdown_fixed_config {σ ε : Type} (parse : Options → String → Node)
    (w : MarkdownWalker σ ε) (d : σ) (md : String) :
    (∀ s : σ, from_markdown parse w d md = Except.ok s ↔
        visit w (parse walkerOptions md) d = (s, none))
    ∧ (∀ e : ε, from_markdown parse w d md = Except.error e ↔
        (visit w (parse walkerOptions md) d).2 = some e)
    ∧ walkerOptions.extension = walkerExtensionOptions
    ∧ walkerExtensionOptions.autolink = true
    ∧ walkerExtensionOptions.description_lists = true
    ∧ walkerExtensionOptions.footnotes = true
    ∧ walkerExtensionOptions.math_code = true
    ∧ walkerExtensionOptions.math_dollars = true
    ∧ walkerExtensionOptions.multiline_block_quotes = true
    ∧ walkerExtensionOptions.shortcodes = true
    ∧ walkerExtensionOptions.spoiler = true
    ∧ walkerExtensionOptions.strikethrough = true
    ∧ walkerExtensionOptions.subscript = true
    ∧ walkerExtensionOptions.superscript = true
    ∧ walkerExtensionOptions.table = true
    ∧ walkerExtensionOptions.tagfilter = true
    ∧ walkerExtensionOptions.tasklist = true
    ∧ walkerExtensionOptions.underline = true
    ∧ walkerExtensionOptions.wikilinks_title_after_pipe = true
    ∧ walkerExtensionOptions.wikilinks_title_before_pipe = true := by
  refine ⟨?_, ?_, rfl, rfl, rfl, rfl, rfl, rfl, rfl, rfl, rfl, rfl, rfl, rfl, rfl, rfl,
    rfl, rfl, rfl, rfl⟩
  · intro s
    simp only [from_markdown]
    rcases hv : visit w (parse walkerOptions md) d with ⟨s1, _ | e1⟩ <;> simp
  · intro e
    simp only [from_markdown]
    rcases hv : visit w (parse walkerOptions md) d with ⟨s1, _ | e1⟩ <;> simp

/-- C8: failure sources of `from_markdown`.  In comrak, `parse_document` is
total — the call in `from_markdown` is not fallible and no error path exists
for it — so the parse-failure clause of the claim is vacuous, and every
failure `from_markdown` returns is exactly a handler failure from the
traversal, surfaced unchanged; on the other hand it never fails unless some
handler failed. -/
theorem from_markdown_failure_sources {σ ε : Type} (parse : Options → String → Node)
    (w : MarkdownWalker σ ε) (d : σ) (md : String) :
    ∀ e : ε, from_markdown parse w d md = Except.error e ↔
      (visit w (parse walkerOptions md) d).2 = some e := by
  intro e
  simp only [from_markdown]
  rcases hv : visit w (parse walkerOptions md) d with ⟨s1, _ | e1⟩ <;> simp

/-- C7: empty input.  If the parser maps empty input to a bare document root
with no children (comrak's documented behavior, hypothesis on the external
collaborator), then the only node dispatched is that root — so no handler
besides the document handler fires — and when the document handler is a
non-mutating success (in particular when it is not overridden) the returned
accumulator is exactly the freshly default-initialized value. -/
theorem from_markdown_empty_input {σ ε : Type} (parse : Options → String → Node)
    (w : MarkdownWalker σ ε) (d : σ)
    (hparse : parse walkerOptions "" = Node.node NodeValue.Document []) :
    (visitT w (Node.node NodeValue.Document []) d).2.1 = [Node.node NodeValue.Document []]
    ∧ visit w (Node.node NodeValue.Document []) d
        = w.visit_document (Node.node NodeValue.Document []) d
    ∧ (w.visit_document (Node.node NodeValue.Document []) d = (d, none) →
        from_markdown parse w d "" = Except.ok d) := by
  have hdis : dispatchNode w (Node.node NodeValue.Document []) d
      = w.visit_document (Node.node NodeValue.Document []) d := rfl
  have hv : visit w (Node.node NodeValue.Document []) d
      = w.visit_document (Node.node NodeValue.Document []) d := by
    simp only [visit, hdis]
    rcases hd : w.visit_document (Node.node NodeValue.Document []) d with ⟨s1, _ | e⟩
    · simp [visitChildren]
    · rfl
  refine ⟨?_, hv, ?_⟩
  · simp only [visitT, hdis]
    rcases hd : w.visit_document (Node.node NodeValue.Document []) d with ⟨s1, _ | e⟩
    · simp [visitChildrenT]
    · simp
  · intro hdoc
    simp only [from_markdown, hparse, hv, hdoc]

/-- Witness for C7 with a concrete parser stub sending every input to a bare
document root and the default walker: the trace is just the root and the
accumulator comes back at its default value. -/
theorem from_markdown_empty_input_witness :
    (visitT (defaultWalker : MarkdownWalker Nat String) (Node.node NodeValue.Document []) 0).2.1
        = [Node.node NodeValue.Document []]
    ∧ from_markdown emptyParse (defaultWalker : MarkdownWalker Nat String) 0 "" = Except.ok 0 :=
  ⟨(from_markdown_empty_input emptyParse (defaultWalker : MarkdownWalker Nat String) 0 rfl).1,
   (from_markdown_empty_input emptyParse (defaultWalker : MarkdownWalker Nat String) 0 rfl).2.2 rfl⟩

/-- C3: exactly-once dispatch through a total, exhaustive, kind-indexed
dispatch.  On a successfully completing traversal the dispatched-node trace
is exactly the pre-order listing — each node position dispatched exactly
once, the trace length being the number of nodes — and for every kind the
number of dispatches of that kind's handler equals the number of nodes of
that kind in the tree.  Moreover the dispatch at a node invokes exactly the
one handler selected by its kind tag, for all forty-one kinds, with no
fallback arm. -/
theorem visit_dispatch_exactly_once {σ ε : Type} (w : MarkdownWalker σ ε) (t : Node) (s : σ)
    (h : (visitT w t s).2.2 = none) :
    (visitT w t s).2.1 = preorder t
    ∧ (visitT w t s).2.1.length = size t
    ∧ (∀ k : NodeKind,
        ((visitT w t s).2.1.filter (fun nd => decide (nodeKind nd = k))).length = countKind k t)
    ∧ ((∀ (cs : List Node) (s0 : σ),
          dispatchNode w (Node.node NodeValue.Document cs) s0
            = w.visit_document (Node.node NodeValue.Document cs) s0)
      ∧ (∀ (p : NodeCode) (cs : List Node) (s0 : σ),
          dispatchNode w (Node.node (NodeValue.Code p) cs) s0
            = w.visit_code (Node.node (NodeValue.Code p) cs) p s0)
      ∧ (∀ (p : NodeCodeBlock) (cs : List Node) (s0 : σ),
          dispatchNode w (Node.node (NodeValue.CodeBlock p) cs) s0
            = w.visit_code_block (Node.node (NodeValue.CodeBlock p) cs) p s0)
      ∧ (∀ (p : String) (cs : List Node) (s0 : σ),
          dispatchNode w (Node.node (NodeValue.EscapedTag p) cs) s0
            = w.visit_escaped_tag (Node.node (NodeValue.EscapedTag p) cs) p s0)
      ∧ (∀ (p : String) (cs : List Node) (s0 : σ),
          dispatchNode w (Node.node (NodeValue.FrontMatter p) cs) s0
            = w.visit_front_matter (Node.node (NodeValue.FrontMatter p) cs) p s0)
      ∧ (∀ (p : NodeFootnoteDefinition) (cs : List Node) (s0 : σ),
          dispatchNode w (Node.node (NodeValue.FootnoteDefinition p) cs) s0
            = w.visit_footnote_definition (Node.node (NodeValue.FootnoteDefinition p) cs) p s0)
      ∧ (∀ (p : NodeFootnoteReference) (cs : List Node) (s0 : σ),
          dispatchNode w (Node.node (NodeValue.FootnoteReference p) cs) s0
            = w.visit_footnote_reference (Node.node (NodeValue.FootnoteReference p) cs) p s0)
      ∧ (∀ (p : NodeHeading) (cs : List Node) (s0 : σ),
          dispatchNode w (Node.node (NodeValue.Heading p) cs) s0
            = w.visit_heading (Node.node (NodeValue.Heading p) cs) p s0)
      ∧ (∀ (p : NodeHtmlBlock) (cs : List Node) (s0 : σ),
          dispatchNode w (Node.node (NodeValue.HtmlBlock p) cs) s0
            = w.visit_html_block (Node.node (NodeValue.HtmlBlock p) cs) p s0)
      ∧ (∀ (p : String) (cs : List Node) (s0 : σ),
          dispatchNode w (Node.node (NodeValue.HtmlInline p) cs) s0
            = w.visit_html_inline (Node.node (NodeValue.HtmlInline p) cs) p s0)
      ∧ (∀ (p : NodeLink) (cs : List Node) (s0 : σ),
          dispatchNode w (Node.node (NodeValue.Image p) cs) s0
            = w.visit_image (Node.node (NodeValue.Image p) cs) p s0)
      ∧ (∀ (p : NodeList) (cs : List Node) (s0 : σ),
          dispatchNode w (Node.node (NodeValue.Item p) cs) s0
            = w.visit_item (Node.node (NodeValue.Item p) cs) p s0)
      ∧ (∀ (p : NodeLink) (cs : List Node) (s0 : σ),
          dispatchNode w (Node.node (NodeValue.Link p) cs) s0
            = w.visit_link (Node.node (NodeValue.Link p) cs) p s0)
      ∧ (∀ (p : NodeList) (cs : List Node) (s0 : σ),
          dispatchNode w (Node.node (NodeValue.List p) cs) s0
            = w.visit_list (Node.node (NodeValue.List p) cs) p s0)
      ∧ (∀ (p : NodeMath) (cs : List Node) (s0 : σ),
          dispatchNode w (Node.node (NodeValue.Math p) cs) s0
            = w.visit_math (Node.node (NodeValue.Math p) cs) p s0)
      ∧ (∀ (p : NodeMultilineBlockQuote) (cs : List Node) (s0 : σ),
          dispatchNode w (Node.node (NodeValue.MultilineBlockQuote p) cs) s0
            = w.visit_multiline_block_quote (Node.node (NodeValue.MultilineBlockQuote p) cs) p s0)
      ∧ (∀ (p : String) (cs : List Node) (s0 : σ),
          dispatchNode w (Node.node (NodeValue.Raw p) cs) s0
            = w.visit_raw (Node.node (NodeValue.Raw p) cs) p s0)
      ∧ (∀ (p : Option Char) (cs : List Node) (s0 : σ),
          dispatchNode w (Node.node (NodeValue.TaskItem p) cs) s0
            = w.visit_task_item (Node.node (NodeValue.TaskItem p) cs) p s0)
      ∧ (∀ (p : String) (cs : List Node) (s0 : σ),
          dispatchNode w (Node.node (NodeValue.Text p) cs) s0
            = w.visit_text (Node.node (NodeValue.Text p) cs) p s0)
      ∧ (∀ (p : NodeShortCode) (cs : List Node) (s0 : σ),
          dispatchNode w (Node.node (NodeValue.ShortCode p) cs) s0
            = w.visit_short_code (Node.node (NodeValue.ShortCode p) cs) p s0)
      ∧ (∀ (p : NodeWikiLink) (cs : List Node) (s0 : σ),
          dispatchNode w (Node.node (NodeValue.WikiLink p) cs) s0
            = w.visit_wiki_link (Node.node (NodeValue.WikiLink p) cs) p s0)
      ∧ (∀ (p : NodeDescriptionItem) (cs : List Node) (s0 : σ),
          dispatchNode w (Node.node (NodeValue.DescriptionItem p) cs) s0
            = w.visit_description_item (Node.node (NodeValue.DescriptionItem p) cs) p s0)
      ∧ (∀ (cs : List Node) (s0 : σ),
          dispatchNode w (Node.node NodeValue.DescriptionList cs) s0
            = w.visit_description_list (Node.node NodeValue.DescriptionList cs) s0)
      ∧ (∀ (cs : List Node) (s0 : σ),
          dispatchNode w (Node.node NodeValue.DescriptionTerm cs) s0
            = w.visit_description_term (Node.node NodeValue.DescriptionTerm cs) s0)
      ∧ (∀ (cs : List Node) (s0 : σ),
          dispatchNode w (Node.node NodeValue.DescriptionDetails cs) s0
            = w.visit_description_details (Node.node NodeValue.DescriptionDetails cs) s0)
      ∧ (∀ (p : NodeTable) (cs : List Node) (s0 : σ),
          dispatchNode w (Node.node (NodeValue.Table p) cs) s0
            = w.visit_table (Node.node (NodeValue.Table p) cs) p s0)
      ∧ (∀ (p : Bool) (cs : List Node) (s0 : σ),
          dispatchNode w (Node.node (NodeValue.TableRow p) cs) s0
            = w.visit_table_row (Node.node (NodeValue.TableRow p) cs) p s0)
      ∧ (∀ (cs : List Node) (s0 : σ),
          dispatchNode w (Node.node NodeValue.TableCell cs) s0
            = w.visit_table_cell (Node.node NodeValue.TableCell cs) s0)
      ∧ (∀ (cs : List Node) (s0 : σ),
          dispatchNode w (Node.node NodeValue.BlockQuote cs) s0
            = w.visit_block_quote (Node.node NodeValue.BlockQuote cs) s0)
      ∧ (∀ (cs : List Node) (s0 : σ),
          dispatchNode w (Node.node NodeValue.Emph cs) s0
            = w.visit_emph (Node.node NodeValue.Emph cs) s0)
      ∧ (∀ (cs : List Node) (s0 : σ),
          dispatchNode w (Node.node NodeValue.Escaped cs) s0
            = w.visit_escaped (Node.node NodeValue.Escaped cs) s0)
      ∧ (∀ (cs : List Node) (s0 : σ),
          dispatchNode w (Node.node NodeValue.LineBreak cs) s0
            = w.visit_line_break (Node.node NodeValue.LineBreak cs) s0)
      ∧ (∀ (cs : List Node) (s0 : σ),
          dispatchNode w (Node.node NodeValue.Paragraph cs) s0
            = w.visit_paragraph (Node.node NodeValue.Paragraph cs) s0)
      ∧ (∀ (cs : List Node) (s0 : σ),
          dispatchNode w (Node.node NodeValue.SoftBreak cs) s0
            = w.visit_soft_break (Node.node NodeValue.SoftBreak cs) s0)
      ∧ (∀ (cs : List Node) (s0 : σ),
          dispatchNode w (Node.node NodeValue.SpoileredText cs) s0
            = w.visit_spoilered_text (Node.node NodeValue.SpoileredText cs) s0)
      ∧ (∀ (cs : List Node) (s0 : σ),
          dispatchNode w (Node.node NodeValue.Strikethrough cs) s0
            = w.visit_strikethrough (Node.node NodeValue.Strikethrough cs) s0)
      ∧ (∀ (cs : List Node) (s0 : σ),
          dispatchNode w (Node.node NodeValue.Strong cs) s0
            = w.visit_strong (Node.node NodeValue.Strong cs) s0)
      ∧ (∀ (cs : List Node) (s0 : σ),
          dispatchNode w (Node.node NodeValue.Subscript cs) s0
            = w.visit_subscript (Node.node NodeValue.Subscript cs) s0)
      ∧ (∀ (cs : List Node) (s0 : σ),
          dispatchNode w (Node.node NodeValue.Superscript cs) s0
            = w.visit_superscript (Node.node NodeValue.Superscript cs) s0)
      ∧ (∀ (cs : List Node) (s0 : σ),
          dispatchNode w (Node.node NodeValue.ThematicBreak cs) s0
            = w.visit_thematic_break (Node.node NodeValue.ThematicBreak cs) s0)
      ∧ (∀ (cs : List Node) (s0 : σ),
          dispatchNode w (Node.node NodeValue.Underline cs) s0
            = w.visit_underline (Node.node NodeValue.Underline cs) s0)) := by
  have htr : (visitT w t s).2.1 = preorder t := by
    rw [visitT_eq_seqT] at h ⊢
    exact dispatchSeqT_ok_trace w (preorder t) s h
  refine ⟨htr, ?_, ?_, ?_⟩
  · rw [htr, preorder_length]
  · intro k
    rw [htr]
    exact preorder_count k t
  · repeat' apply And.intro
    all_goals intros
    all_goals rfl

/-- Witness for C3 on a concrete successful run: the trace is the pre-order
listing, its length is the node count, and the text-node count matches. -/
theorem visit_dispatch_exactly_once_witness :
    (visitT (defaultWalker : MarkdownWalker Nat String) sampleNode 0).2.1 = preorder sampleNode
    ∧ (visitT (defaultWalker : MarkdownWalker Nat String) sampleNode 0).2.1.length = size sampleNode
    ∧ ((visitT (defaultWalker : MarkdownWalker Nat String) sampleNode 0).2.1.filter
        (fun nd => decide (nodeKind nd = NodeKind.Text))).length
        = countKind NodeKind.Text sampleNode :=
  ⟨(visit_dispatch_exactly_once (defaultWalker : MarkdownWalker Nat String) sampleNode 0 rfl).1,
   (visit_dispatch_exactly_once (defaultWalker : MarkdownWalker Nat String) sampleNode 0 rfl).2.1,
   (visit_dispatch_exactly_once (defaultWalker : MarkdownWalker Nat String) sampleNode 0 rfl).2.2.1
     NodeKind.Text⟩

/-- C5: every default handler is a pure no-op returning success — for every
node and payload it returns the accumulator unchanged with no error, for all
forty-one handlers (in the order the trait defines them, src/lib.rs lines
194-537) — and consequently a walker that overrides nothing accumulates
nothing and never fails on any tree. -/
theorem default_handlers_noop {σ ε : Type} :
    (∀ (t : Node) (s : σ),
        (defaultWalker : MarkdownWalker σ ε).visit_block_quote t s = (s, none))
    ∧ (∀ (t : Node) (p : NodeCode) (s : σ),
        (defaultWalker : MarkdownWalker σ ε).visit_code t p s = (s, none))
    ∧ (∀ (t : Node) (p : NodeCodeBlock) (s : σ),
        (defaultWalker : MarkdownWalker σ ε).visit_code_block t p s = (s, none))
    ∧ (∀ (t : Node) (p : NodeDescriptionItem) (s : σ),
        (defaultWalker : MarkdownWalker σ ε).visit_description_item t p s = (s, none))
    ∧ (∀ (t : Node) (s : σ),
        (defaultWalker : MarkdownWalker σ ε).visit_description_list t s = (s, none))
    ∧ (∀ (t : Node) (s : σ),
        (defaultWalker : MarkdownWalker σ ε).visit_description_term t s = (s, none))
    ∧ (∀ (t : Node) (s : σ),
        (defaultWalker : MarkdownWalker σ ε).visit_description_details t s = (s, none))
    ∧ (∀ (t : Node) (s : σ),
        (defaultWalker : MarkdownWalker σ ε).visit_document t s = (s, none))
    ∧ (∀ (t : Node) (s : σ),
        (defaultWalker : MarkdownWalker σ ε).visit_escaped t s = (s, none))
    ∧ (∀ (t : Node) (p : String) (s : σ),
        (defaultWalker : MarkdownWalker σ ε).visit_escaped_tag t p s = (s, none))
    ∧ (∀ (t : Node) (s : σ),
        (defaultWalker : MarkdownWalker σ ε).visit_emph t s = (s, none))
    ∧ (∀ (t : Node) (p : NodeFootnoteDefinition) (s : σ),
        (defaultWalker : MarkdownWalker σ ε).visit_footnote_definition t p s = (s, none))
    ∧ (∀ (t : Node) (p : NodeFootnoteReference) (s : σ),
        (defaultWalker : MarkdownWalker σ ε).visit_footnote_reference t p s = (s, none))
    ∧ (∀ (t : Node) (p : String) (s : σ),
        (defaultWalker : MarkdownWalker σ ε).visit_front_matter t p s = (s, none))
    ∧ (∀ (t : Node) (p : NodeHeading) (s : σ),
        (defaultWalker : MarkdownWalker σ ε).visit_heading t p s = (s, none))
    ∧ (∀ (t : Node) (p : NodeHtmlBlock) (s : σ),
        (defaultWalker : MarkdownWalker σ ε).visit_html_block t p s = (s, none))
    ∧ (∀ (t : Node) (p : String) (s : σ),
        (defaultWalker : MarkdownWalker σ ε).visit_html_inline t p s = (s, none))
    ∧ (∀ (t : Node) (p : NodeLink) (s : σ),
        (defaultWalker : MarkdownWalker σ ε).visit_image t p s = (s, none))
    ∧ (∀ (t : Node) (p : NodeList) (s : σ),
        (defaultWalker : MarkdownWalker σ ε).visit_item t p s = (s, none))
    ∧ (∀ (t : Node) (p : NodeLink) (s : σ),
        (defaultWalker : MarkdownWalker σ ε).visit_link t p s = (s, none))
    ∧ (∀ (t : Node) (s : σ),
        (defaultWalker : MarkdownWalker σ ε).visit_line_break t s = (s, none))
    ∧ (∀ (t : Node) (p : NodeList) (s : σ),
        (defaultWalker : MarkdownWalker σ ε).visit_list t p s = (s, none))
    ∧ (∀ (t : Node) (p : NodeMath) (s : σ),
        (defaultWalker : MarkdownWalker σ ε).visit_math t p s = (s, none))
    ∧ (∀ (t : Node) (p : NodeMultilineBlockQuote) (s : σ),
        (defaultWalker : MarkdownWalker σ ε).visit_multiline_block_quote t p s = (s, none))
    ∧ (∀ (t : Node) (s : σ),
        (defaultWalker : MarkdownWalker σ ε).visit_paragraph t s = (s, none))
    ∧ (∀ (t : Node) (p : String) (s : σ),
        (defaultWalker : MarkdownWalker σ ε).visit_raw t p s = (s, none))
    ∧ (∀ (t : Node) (p : NodeShortCode) (s : σ),
        (defaultWalker : MarkdownWalker σ ε).visit_short_code t p s = (s, none))
    ∧ (∀ (t : Node) (s : σ),
        (defaultWalker : MarkdownWalker σ ε).visit_soft_break t s = (s, none))
    ∧ (∀ (t : Node) (s : σ),
        (defaultWalker : MarkdownWalker σ ε).visit_spoilered_text t s = (s, none))
    ∧ (∀ (t : Node) (s : σ),
        (defaultWalker : MarkdownWalker σ ε).visit_strong t s = (s, none))
    ∧ (∀ (t : Node) (s : σ),
        (defaultWalker : MarkdownWalker σ ε).visit_strikethrough t s = (s, none))
    ∧ (∀ (t : Node) (s : σ),
        (defaultWalker : MarkdownWalker σ ε).visit_subscript t s = (s, none))
    ∧ (∀ (t : Node) (s : σ),
        (defaultWalker : MarkdownWalker σ ε).visit_superscript t s = (s, none))
    ∧ (∀ (t : Node) (p : NodeTable) (s : σ),
        (defaultWalker : MarkdownWalker σ ε).visit_table t p s = (s, none))
    ∧ (∀ (t : Node) (s : σ),
        (defaultWalker : MarkdownWalker σ ε).visit_table_cell t s = (s, none))
    ∧ (∀ (t : Node) (p : Bool) (s : σ),
        (defaultWalker : MarkdownWalker σ ε).visit_table_row t p s = (s, none))
    ∧ (∀ (t : Node) (p : Option Char) (s : σ),
        (defaultWalker : MarkdownWalker σ ε).visit_task_item t p s = (s, none))
    ∧ (∀ (t : Node) (p : String) (s : σ),
        (defaultWalker : MarkdownWalker σ ε).visit_text t p s = (s, none))
    ∧ (∀ (t : Node) (s : σ),
        (defaultWalker : MarkdownWalker σ ε).visit_thematic_break t s = (s, none))
    ∧ (∀ (t : Node) (s : σ),
        (defaultWalker : MarkdownWalker σ ε).visit_underline t s = (s, none))
    ∧ (∀ (t : Node) (p : NodeWikiLink) (s : σ),
        (defaultWalker : MarkdownWalker σ ε).visit_wiki_link t p s = (s, none))
    ∧ (∀ (t : Node) (s : σ),
        visit (defaultWalker : MarkdownWalker σ ε) t s = (s, none)) := by
  repeat' apply And.intro
  all_goals intros
  all_goals first
    | rfl
    | apply visit_default
